import Mathlib

/-!
Shallow embedding of the Backend-Website-Surat-Sakit notification dispatcher
(src/utils/email_sender.py), the post-persistence part of the generate
endpoint (src/server.py), and the spreadsheet exporter
(src/utils/excel_exporter.py).

The external environment of one dispatch call is a `World`: the SMTP
credentials (Python truthiness of `SMTP_EMAIL` / `SMTP_PASSWORD`), whether the
PDF file at the given path exists, the outcome of the SMTP network send
(`none` = the send completes, `some e` = an exception with message `e`), the
outcome of the Google API imports, and the `GOOGLE_DRIVE_FOLDER_ID` value.
-/

namespace SuratSakit

/-- Channel attempt result: the dict `\x7b'success': ..., 'method': ..., 'error': ...\x7d`
returned by `_send_via_email`, `_upload_to_drive` and `send_letter_to_admin`. -/
structure ChannelResult where
  success : Bool
  method : Option String
  error : Option String
deriving DecidableEq

/-- Environment of one dispatch call. -/
structure World where
  smtpEmail : Option String
  smtpPassword : Option String
  pdfExists : Bool
  smtpNet : Option String
  driveImport : Option String
  driveFolderId : Option String

/-- Python truthiness of an optional string: `None` and the empty string are falsy. -/
def truthy : Option String → Bool
  | none => false
  | some s => !s.isEmpty

/-- Body of `_send_via_email` (the code inside its `try`): config check, PDF
existence check, then the SMTP send, which may raise (modelled as
`Except.error`). The SSL and STARTTLS branches both perform login + send, so
they collapse to one network outcome. The `Bool` records whether the SMTP
network connection was reached. -/
def send_via_email_body (w : World) : Except String (ChannelResult × Bool) :=
  if !truthy w.smtpEmail || !truthy w.smtpPassword then
    Except.ok (⟨false, some "email", some "SMTP credentials not configured"⟩, false)
  else if !w.pdfExists then
    Except.ok (⟨false, some "email", some "PDF file not found"⟩, false)
  else
    match w.smtpNet with
    | none => Except.ok (⟨true, some "email", none⟩, true)
    | some e => Except.error e

/-- `_send_via_email` with its blanket `except Exception` handler, which turns
any exception into a failed result carrying `str(e)`. -/
def send_via_email_attempt (w : World) : ChannelResult × Bool :=
  match send_via_email_body w with
  | Except.ok r => r
  | Except.error e => (⟨false, some "email", some e⟩, true)

/-- The `ChannelResult` returned by `_send_via_email`. -/
def send_via_email (w : World) : ChannelResult :=
  (send_via_email_attempt w).1

/-- Whether `_send_via_email` reached the SMTP network connection. -/
def email_network_attempted (w : World) : Bool :=
  (send_via_email_attempt w).2

/-- Body of `_upload_to_drive` (inside its `try`): the Google API imports may
raise; then the folder-id check; then the hard-coded "service account not
configured" failure. No network call is ever made, so the `Bool` (network
attempted) is always `false`. -/
def upload_to_drive_body (w : World) : Except String (ChannelResult × Bool) :=
  match w.driveImport with
  | some e => Except.error e
  | none =>
    if !truthy w.driveFolderId then
      Except.ok (⟨false, some "drive", some "Google Drive folder ID not configured"⟩, false)
    else
      Except.ok (⟨false, some "drive", some "Google Drive service account not configured"⟩, false)

/-- `_upload_to_drive` with its blanket `except Exception` handler. -/
def upload_to_drive_attempt (w : World) : ChannelResult × Bool :=
  match upload_to_drive_body w with
  | Except.ok r => r
  | Except.error e => (⟨false, some "drive", some e⟩, false)

/-- The `ChannelResult` returned by `_upload_to_drive`. -/
def upload_to_drive (w : World) : ChannelResult :=
  (upload_to_drive_attempt w).1

/-- Whether `_upload_to_drive` made any network call. -/
def drive_network_attempted (w : World) : Bool :=
  (upload_to_drive_attempt w).2

/-- `send_letter_to_admin`: try email first; if its result is successful return
it; otherwise try Google Drive and return the drive result if successful, else
the email result. -/
def send_letter_to_admin (w : World) : ChannelResult :=
  let email_result := send_via_email w
  if email_result.success then email_result
  else
    let drive_result := upload_to_drive w
    if drive_result.success then drive_result else email_result

/-- Instrumented dispatcher: same control flow as `send_letter_to_admin`, also
returning the list of channel results actually computed, in attempt order. -/
def send_letter_trace (w : World) : ChannelResult × List ChannelResult :=
  let email_result := send_via_email w
  if email_result.success then (email_result, [email_result])
  else
    let drive_result := upload_to_drive w
    (if drive_result.success then drive_result else email_result,
     [email_result, drive_result])

/-- Results of the channel attempts actually made, in attempt order. -/
def attempted_results (w : World) : List ChannelResult :=
  (send_letter_trace w).2

/-- The fixed channel order hard-coded in `send_letter_to_admin`. -/
def channels : List (World → ChannelResult) :=
  [send_via_email, upload_to_drive]

/-- Names of the channels, in the same order as `channels`. -/
def channel_names : List String :=
  ["email", "drive"]

/-- Fields of a sick-letter record that the exporter reads via `record.get`
with default `''`; absent keys are `none`. -/
structure Rec where
  date_issued : Option String
  letter_number : Option String
  name : Option String
  gender : Option String
  age : Option String
  occupation : Option String
  address : Option String
  duration : Option String
  from_date : Option String
  to_date : Option String
  notes : Option String
  doctor_name : Option String
deriving DecidableEq

/-- JSON body returned by the generate endpoint on its success path. -/
structure GenResponse where
  success : Bool
  message : String
  sent_to : String
  email_status : ChannelResult
deriving DecidableEq

/-- Post-render part of `generate_sick_letter` (src/server.py): insert the
record into the database, dispatch the letter to the admin, and build the
HTTP response with the dispatch result attached under `email_status`. -/
def generate_sick_letter_after_render (db : List Rec) (record : Rec) (w : World) :
    List Rec × GenResponse :=
  let db2 := db ++ [record]
  let email_result := send_letter_to_admin w
  (db2, ⟨true, "Surat berhasil dibuat dan telah dikirim ke admin.",
         "achmadkabir003@gmail.com", email_result⟩)

/-- A spreadsheet cell value: openpyxl receives either the row number or a
string field through `cell.value`. -/
inductive Cell where
  | num : Nat → Cell
  | str : String → Cell
deriving DecidableEq

/-- Worksheet contents: row number to the list of cell values written on that
row (columns 1..n in order); `none` for rows never written. -/
def Sheet : Type := Nat → Option (List Cell)

/-- Write one full row of cells (the inner `for col_num, value` loop). -/
def write_row (s : Sheet) (row : Nat) (cells : List Cell) : Sheet :=
  fun n => if n = row then some cells else s n

/-- The fixed column headers written on row 1 by `export_records_to_excel`. -/
def headers : List String :=
  ["No", "Tanggal Terbit", "No. Surat", "Nama Pasien", "Jenis Kelamin", "Umur",
   "Pekerjaan", "Alamat", "Durasi Istirahat", "Tanggal Mulai", "Tanggal Selesai",
   "Diagnosa", "Dokter"]

/-- The `data_row` list built for one record at worksheet row `row_num`
(rows are numbered from 2, and the first column holds `row_num - 1`). -/
def data_row (row_num : Nat) (r : Rec) : List Cell :=
  [Cell.num (row_num - 1),
   Cell.str (r.date_issued.getD ""),
   Cell.str (r.letter_number.getD ""),
   Cell.str (r.name.getD ""),
   Cell.str (r.gender.getD ""),
   Cell.str (r.age.getD ""),
   Cell.str (r.occupation.getD ""),
   Cell.str (r.address.getD ""),
   Cell.str (r.duration.getD ""),
   Cell.str (r.from_date.getD ""),
   Cell.str (r.to_date.getD ""),
   Cell.str (r.notes.getD ""),
   Cell.str (r.doctor_name.getD "")]

/-- The `for row_num, record in enumerate(records, 2)` loop: write one data
row per record at consecutive row numbers starting at `row_num`. -/
def write_data (s : Sheet) (row_num : Nat) : List Rec → Sheet
  | [] => s
  | r :: rs => write_data (write_row s row_num (data_row row_num r)) (row_num + 1) rs

/-- `export_records_to_excel`: headers on row 1, then one data row per record
starting at row 2 (styling, column widths and the saved filename are not
modelled). -/
def export_records_to_excel (records : List Rec) : Sheet :=
  write_data (write_row (fun _ => none) 1 (headers.map Cell.str)) 2 records

/-- Example world: SMTP credentials configured, PDF present, network send
completes. -/
def w_ok : World := ⟨some "a@b.c", some "pw", true, none, none, none⟩

/-- Example world: no SMTP credentials, no drive folder id. -/
def w_nocreds : World := ⟨none, none, true, none, none, none⟩

/-- Example world: credentials configured but the SMTP send raises. -/
def w_netfail : World :=
  ⟨some "a@b.c", some "pw", true, some "Connection refused", none, none⟩

/-- Example world: credentials configured but the PDF file is missing. -/
def w_nopdf : World := ⟨some "a@b.c", some "pw", false, none, none, none⟩

/-- Example world: credentials configured, PDF present, SMTP raises "boom". -/
def w_boom : World := ⟨some "a@b.c", some "pw", true, some "boom", none, none⟩

/-- Example record with every field present. -/
def rec_a : Rec :=
  ⟨some "1 Januari 2025", some "SKS-1", some "Budi", some "L", some "30",
   some "PNS", some "Jl. Melati 1", some "3 hari", some "2 Januari 2025",
   some "4 Januari 2025", some "Flu", some "dr. Andi"⟩

/-- Example record with several absent fields. -/
def rec_b : Rec :=
  ⟨none, none, some "Sari", some "P", some "25", none, none, some "2 hari",
   none, none, some "Demam", none⟩

/-- Case analysis of one email attempt. -/
lemma email_attempt_cases (w : World) :
    send_via_email_attempt w =
        (⟨false, some "email", some "SMTP credentials not configured"⟩, false) ∨
    send_via_email_attempt w =
        (⟨false, some "email", some "PDF file not found"⟩, false) ∨
    send_via_email_attempt w = (⟨true, some "email", none⟩, true) ∨
    (∃ e, w.smtpNet = some e ∧
      send_via_email_attempt w = (⟨false, some "email", some e⟩, true)) := by
  unfold send_via_email_attempt send_via_email_body

  rcases he : (!truthy w.smtpEmail || !truthy w.smtpPassword) with _ | _ <;>
    rcases hp : w.pdfExists with _ | _ <;>
      rcases hn : w.smtpNet with _ | e <;>
        simp [he, hp, hn]

/-- Case analysis of one drive attempt. -/
lemma drive_attempt_cases (w : World) :
    upload_to_drive_attempt w =
        (⟨false, some "drive", some "Google Drive folder ID not configured"⟩, false) ∨
    upload_to_drive_attempt w =
        (⟨false, some "drive", some "Google Drive service account not configured"⟩, false) ∨
    (∃ e, w.driveImport = some e ∧
      upload_to_drive_attempt w = (⟨false, some "drive", some e⟩, false)) := by
  unfold upload_to_drive_attempt upload_to_drive_body
  rcases hi : w.driveImport with _ | e <;>
    rcases hf : (!truthy w.driveFolderId) with _ | _ <;>
      simp [hi, hf]

/-- The drive adapter never succeeds. -/
lemma drive_never_succeeds (w : World) : (upload_to_drive w).success = false := by
  have h := drive_attempt_cases w
  unfold upload_to_drive
  rcases h with h | h | ⟨e, _, h⟩ <;> rw [h]

/-- The drive adapter never makes a network call. -/
lemma drive_no_network (w : World) : drive_network_attempted w = false := by
  have h := drive_attempt_cases w
  unfold drive_network_attempted
  rcases h with h | h | ⟨e, _, h⟩ <;> rw [h]

/-- The email adapter always tags its result with method "email". -/
lemma email_method (w : World) : (send_via_email w).method = some "email" := by
  have h := email_attempt_cases w
  unfold send_via_email
  rcases h with h | h | h | ⟨e, _, h⟩ <;> rw [h]

/-- The drive adapter always tags its result with method "drive". -/
lemma drive_method (w : World) : (upload_to_drive w).method = some "drive" := by
  have h := drive_attempt_cases w
  unfold upload_to_drive
  rcases h with h | h | ⟨e, _, h⟩ <;> rw [h]

/-- A failed email attempt always carries an error message. -/
lemma email_error_of_fail (w : World) :
    (send_via_email w).success = false → (send_via_email w).error.isSome = true := by
  have h := email_attempt_cases w
  unfold send_via_email
  rcases h with h | h | h | ⟨e, _, h⟩ <;> rw [h] <;> intro hs <;> simp at hs ⊢

/-- A failed drive attempt always carries an error message. -/
lemma drive_error_of_fail (w : World) :
    (upload_to_drive w).success = false → (upload_to_drive w).error.isSome = true := by
  have h := drive_attempt_cases w
  unfold upload_to_drive
  rcases h with h | h | ⟨e, _, h⟩ <;> rw [h] <;> intro hs <;> simp

/-- Since the drive adapter never succeeds, the dispatcher always returns the
email result. -/
lemma dispatch_eq_email (w : World) : send_letter_to_admin w = send_via_email w := by
  unfold send_letter_to_admin
  rcases hs : (send_via_email w).success with _ | _
  · simp [hs, drive_never_succeeds w]
  · simp [hs]

/-- The traced dispatcher returns the same result as `send_letter_to_admin`. -/
lemma trace_fst (w : World) : (send_letter_trace w).1 = send_letter_to_admin w := by
  unfold send_letter_trace send_letter_to_admin
  rcases hs : (send_via_email w).success with _ | _ <;> simp [hs]

/-- Shape of the attempt trace: one entry if email succeeded, two otherwise. -/
lemma attempted_results_shape (w : World) :
    (if (send_via_email w).success then attempted_results w = [send_via_email w]
     else attempted_results w = [send_via_email w, upload_to_drive w]) := by
  unfold attempted_results send_letter_trace
  rcases hs : (send_via_email w).success with _ | _ <;> simp [hs]

/-- Rows strictly before the first data row are untouched by the data loop. -/
lemma write_data_of_lt (rs : List Rec) (s : Sheet) (row_num n : Nat)
    (h : n < row_num) : write_data s row_num rs n = s n := by
  induction rs generalizing s row_num with
  | nil => rfl
  | cons r rs ih =>
    show write_data (write_row s row_num (data_row row_num r)) (row_num + 1) rs n = s n
    rw [ih _ _ (Nat.lt_succ_of_lt h)]
    unfold write_row
    simp [Nat.ne_of_lt h]

/-- The data loop writes the row of the i-th record at row `row_num + i`. -/
lemma write_data_at (rs : List Rec) (s : Sheet) (row_num i : Nat)
    (h : i < rs.length) :
    write_data s row_num rs (row_num + i) =
      some (data_row (row_num + i) (rs.get ⟨i, h⟩)) := by
  induction rs generalizing s row_num i with
  | nil => exact absurd h (Nat.not_lt_zero i)
  | cons r rs ih =>
    cases i with
    | zero =>
      refine (write_data_of_lt rs _ (row_num + 1) row_num (Nat.lt_succ_self _)).trans ?_
      unfold write_row
      simp
    | succ j =>
      show write_data (write_row s row_num (data_row row_num r)) (row_num + 1) rs
            (row_num + (j + 1)) = _
      have hrw : row_num + (j + 1) = (row_num + 1) + j := by omega
      rw [hrw]
      exact ih _ _ _ (Nat.lt_of_succ_lt_succ h)

/-- C1: if the channel at position i of the priority order returns a
successful result, the dispatcher attempts no channel at any later position
(the attempt trace is exactly the first i+1 channels, in order) and the
returned outcome is successful and names channel i. -/
theorem c1_first_success_stops (w : World) (i : Nat) (h : i < channels.length)
    (hs : ((channels.get ⟨i, h⟩) w).success = true) :
    attempted_results w = (channels.take (i + 1)).map (fun f => f w) ∧
    (send_letter_to_admin w).success = true ∧
    (send_letter_to_admin w).method = channel_names.get? i := by
  have hlen : i = 0 ∨ i = 1 := by
    have h2 : channels.length = 2 := rfl
    omega
  rcases hlen with h0 | h1
  · subst h0
    have hs0 : (send_via_email w).success = true := hs
    have ht := attempted_results_shape w
    rw [hs0] at ht
    simp at ht
    refine ⟨by rw [ht]; rfl, ?_, ?_⟩
    · rw [dispatch_eq_email w]; exact hs0
    · rw [dispatch_eq_email w, email_method w]; rfl
  · subst h1
    have hs1 : (upload_to_drive w).success = true := hs
    rw [drive_never_succeeds w] at hs1
    simp at hs1

/-- Witness for C1: a world where the first channel (email) succeeds. -/
theorem c1_witness :
    ((channels.get ⟨0, by decide⟩) w_ok).success = true ∧
    (attempted_results w_ok = (channels.take (0 + 1)).map (fun f => f w_ok) ∧
     (send_letter_to_admin w_ok).success = true ∧
     (send_letter_to_admin w_ok).method = channel_names.get? 0) :=
  ⟨by decide, c1_first_success_stops w_ok 0 (by decide) (by decide)⟩

/-- C2 counterexample: on a concrete dispatch the first channel attempted is
the email channel, not a chat-bot channel, and no chat-bot channel is
attempted at all — the code has no chat-bot channel, so the claimed order
chat-bot, then email, then cloud-storage is not the order of the code. -/
theorem c2_counterexample :
    ((attempted_results w_nocreds).map ChannelResult.method).head? =
      some (some "email") ∧
    ((attempted_results w_nocreds).map ChannelResult.method).head? ≠
      some (some "chat-bot") ∧
    ¬ some "chat-bot" ∈ (attempted_results w_nocreds).map ChannelResult.method := by
  decide

/-- C2 amended: on every dispatch call the channels are attempted in the fixed
order email first, then cloud storage (Google Drive); there is no chat-bot
channel, and email is always the first channel attempted. -/
theorem c2_email_first (w : World) :
    ((attempted_results w).map ChannelResult.method).head? = some (some "email") ∧
    ((attempted_results w).map ChannelResult.method = [some "email"] ∨
     (attempted_results w).map ChannelResult.method =
       [some "email", some "drive"]) := by
  have ht := attempted_results_shape w
  rcases hs : (send_via_email w).success with _ | _
  · rw [hs] at ht; simp at ht
    rw [ht]
    refine ⟨?_, Or.inr ?_⟩ <;> simp [email_method w, drive_method w]
  · rw [hs] at ht; simp at ht
    rw [ht]
    refine ⟨?_, Or.inl ?_⟩ <;> simp [email_method w]

/-- C3 counterexample: on a concrete dispatch where every channel attempt
fails, the returned value is the single failed email result whose method field
is present (some "email"), not absent, and no list of per-channel results is
returned. -/
theorem c3_counterexample :
    attempted_results w_nocreds =
      [⟨false, some "email", some "SMTP credentials not configured"⟩,
       ⟨false, some "drive", some "Google Drive folder ID not configured"⟩] ∧
    send_letter_to_admin w_nocreds =
      ⟨false, some "email", some "SMTP credentials not configured"⟩ ∧
    (send_letter_to_admin w_nocreds).method ≠ none := by
  decide

/-- C3 amended: when every channel attempt fails, dispatch returns the email
channel failed result — success false but method "email" (present, not
absent) — and both channels were attempted in order; the outcome is a single
ChannelResult, not a list of per-channel results. -/
theorem c3_exhaustion_returns_email_result (w : World)
    (hf : (send_via_email w).success = false ∧
          (upload_to_drive w).success = false) :
    send_letter_to_admin w = send_via_email w ∧
    (send_letter_to_admin w).success = false ∧
    (send_letter_to_admin w).method = some "email" ∧
    attempted_results w = [send_via_email w, upload_to_drive w] := by
  obtain ⟨h1, h2⟩ := hf
  have ht := attempted_results_shape w
  rw [h1] at ht
  simp at ht
  refine ⟨dispatch_eq_email w, ?_, ?_, ht⟩
  · rw [dispatch_eq_email w]; exact h1
  · rw [dispatch_eq_email w]; exact email_method w

/-- Witness for C3 amended: a concrete world where both channels fail. -/
theorem c3_witness :
    ((send_via_email w_nocreds).success = false ∧
     (upload_to_drive w_nocreds).success = false) ∧
    (send_letter_to_admin w_nocreds = send_via_email w_nocreds ∧
     (send_letter_to_admin w_nocreds).success = false ∧
     (send_letter_to_admin w_nocreds).method = some "email" ∧
     attempted_results w_nocreds =
       [send_via_email w_nocreds, upload_to_drive w_nocreds]) :=
  ⟨by decide, c3_exhaustion_returns_email_result w_nocreds (by decide)⟩

/-- C4 counterexample: on a concrete dispatch both channels are attempted (2
attempts) but the returned value is the single email ChannelResult — it is not
a list of length 2 and carries no entry for the attempted drive channel, whose
failed result is discarded. -/
theorem c4_counterexample :
    (attempted_results w_netfail).length = 2 ∧
    send_letter_to_admin w_netfail =
      ⟨false, some "email", some "Connection refused"⟩ ∧
    (attempted_results w_netfail).get? 1 =
      some ⟨false, some "drive", some "Google Drive folder ID not configured"⟩ ∧
    send_letter_to_admin w_netfail ≠
      ⟨false, some "drive", some "Google Drive folder ID not configured"⟩ := by
  decide

/-- C4 amended: the number of channels actually attempted is at most the
channel count (2), exactly 1 when email succeeds and 2 when it fails; the
attempt trace is the order-respecting list of attempted channel results, but
the dispatcher returns only a single ChannelResult (always the email one,
since drive never succeeds), not the list. -/
theorem c4_results_reflect_attempts (w : World) :
    (attempted_results w).length =
      (if (send_via_email w).success then 1 else 2) ∧
    (attempted_results w).length ≤ channels.length ∧
    attempted_results w =
      (channels.take (attempted_results w).length).map (fun f => f w) ∧
    send_letter_to_admin w = send_via_email w := by
  have ht := attempted_results_shape w
  rcases hs : (send_via_email w).success with _ | _
  · rw [hs] at ht; simp at ht
    rw [ht]
    exact ⟨by simp, by simp [channels], rfl, dispatch_eq_email w⟩
  · rw [hs] at ht; simp at ht
    rw [ht]
    exact ⟨by simp, by simp [channels], rfl, dispatch_eq_email w⟩

/-- C5: no channel error escapes as an exception — any exception raised inside
an adapter body is normalized into a ChannelResult with success false and the
exception message as error string, and every failed result (of either adapter
and of the dispatcher) carries a human-readable error string. -/
theorem c5_no_exception_escapes (w : World) :
    (∀ e, send_via_email_body w = Except.error e →
      send_via_email w = ⟨false, some "email", some e⟩) ∧
    (∀ e, upload_to_drive_body w = Except.error e →
      upload_to_drive w = ⟨false, some "drive", some e⟩) ∧
    ((send_via_email w).success = false →
      (send_via_email w).error.isSome = true) ∧
    ((upload_to_drive w).success = false →
      (upload_to_drive w).error.isSome = true) ∧
    ((send_letter_to_admin w).success = false →
      (send_letter_to_admin w).error.isSome = true) := by
  refine ⟨?_, ?_, email_error_of_fail w, drive_error_of_fail w, ?_⟩
  · intro e he
    unfold send_via_email send_via_email_attempt
    rw [he]
  · intro e he
    unfold upload_to_drive upload_to_drive_attempt
    rw [he]
  · rw [dispatch_eq_email w]
    exact email_error_of_fail w

/-- Witness for C5: an SMTP exception "boom" is normalized into a failed
email result carrying the message, and the dispatcher result has an error. -/
theorem c5_witness :
    send_via_email w_boom = ⟨false, some "email", some "boom"⟩ ∧
    (send_letter_to_admin w_boom).error.isSome = true :=
  ⟨(c5_no_exception_escapes w_boom).1 "boom" rfl,
   (c5_no_exception_escapes w_boom).2.2.2.2 rfl⟩

/-- C6: a channel with missing configuration fails immediately with no network
attempt — unset SMTP credentials yield a failed email result with the SMTP
connection never reached, and an unset Drive folder id yields a failed drive
result; the drive channel never makes a network call at all. -/
theorem c6_missing_config_no_network (w : World) :
    ((truthy w.smtpEmail = false ∨ truthy w.smtpPassword = false) →
      send_via_email_attempt w =
        (⟨false, some "email", some "SMTP credentials not configured"⟩, false)) ∧
    ((truthy w.driveFolderId = false ∧ w.driveImport = none) →
      upload_to_drive_attempt w =
        (⟨false, some "drive", some "Google Drive folder ID not configured"⟩,
         false)) ∧
    drive_network_attempted w = false := by
  refine ⟨?_, ?_, drive_no_network w⟩
  · intro h
    have hc : (!truthy w.smtpEmail || !truthy w.smtpPassword) = true := by
      rcases h with h | h <;> simp [h]
    unfold send_via_email_attempt send_via_email_body
    rw [hc]
    rfl
  · intro h
    obtain ⟨h1, h2⟩ := h
    unfold upload_to_drive_attempt upload_to_drive_body
    rw [h2]
    simp [h1]

/-- Witness for C6: a world with no SMTP credentials and no Drive folder id. -/
theorem c6_witness :
    (truthy w_nocreds.smtpEmail = false ∨ truthy w_nocreds.smtpPassword = false) ∧
    send_via_email_attempt w_nocreds =
      (⟨false, some "email", some "SMTP credentials not configured"⟩, false) ∧
    (truthy w_nocreds.driveFolderId = false ∧ w_nocreds.driveImport = none) ∧
    upload_to_drive_attempt w_nocreds =
      (⟨false, some "drive", some "Google Drive folder ID not configured"⟩,
       false) ∧
    drive_network_attempted w_nocreds = false :=
  ⟨Or.inl rfl, (c6_missing_config_no_network w_nocreds).1 (Or.inl rfl),
   ⟨rfl, rfl⟩, (c6_missing_config_no_network w_nocreds).2.1 ⟨rfl, rfl⟩,
   (c6_missing_config_no_network w_nocreds).2.2⟩

/-- C7 counterexample: with credentials configured and the document file
missing, the email adapter body raises no exception — it returns an ordinary
failed ChannelResult (error "PDF file not found") — and dispatch returns that
result normally, exactly like any channel runtime failure; no hard error
reaches the caller. -/
theorem c7_counterexample :
    send_via_email_body w_nopdf =
      Except.ok (⟨false, some "email", some "PDF file not found"⟩, false) ∧
    send_letter_to_admin w_nopdf =
      ⟨false, some "email", some "PDF file not found"⟩ ∧
    (send_letter_to_admin w_nopdf).success = false :=
  ⟨rfl, by decide, by decide⟩

/-- C7 amended: a dispatch whose document file is missing is handled as an
ordinary channel failure, not a hard error: the email adapter body returns a
normal failed result (no exception), and dispatch returns that failed
ChannelResult to the caller. -/
theorem c7_missing_pdf_soft_failure (w : World)
    (he : truthy w.smtpEmail = true) (hp : truthy w.smtpPassword = true)
    (hd : w.pdfExists = false) :
    send_via_email_body w =
      Except.ok (⟨false, some "email", some "PDF file not found"⟩, false) ∧
    send_letter_to_admin w =
      ⟨false, some "email", some "PDF file not found"⟩ := by
  have hb : send_via_email_body w =
      Except.ok (⟨false, some "email", some "PDF file not found"⟩, false) := by
    unfold send_via_email_body
    simp [he, hp, hd]
  refine ⟨hb, ?_⟩
  rw [dispatch_eq_email w]
  unfold send_via_email send_via_email_attempt
  rw [hb]

/-- Witness for C7 amended: a concrete world with credentials configured and
the PDF missing. -/
theorem c7_witness :
    (truthy w_nopdf.smtpEmail = true ∧ truthy w_nopdf.smtpPassword = true ∧
     w_nopdf.pdfExists = false) ∧
    (send_via_email_body w_nopdf =
       Except.ok (⟨false, some "email", some "PDF file not found"⟩, false) ∧
     send_letter_to_admin w_nopdf =
       ⟨false, some "email", some "PDF file not found"⟩) :=
  ⟨⟨by decide, by decide, rfl⟩,
   c7_missing_pdf_soft_failure w_nopdf (by decide) (by decide) rfl⟩

/-- C8: once the record is inserted, the dispatch outcome affects neither the
stored records nor the HTTP success flag — the database value is the same for
any two dispatch environments, the response success flag is true regardless of
the dispatch result, and the dispatch result is attached under email_status. -/
theorem c8_dispatch_frame (db : List Rec) (record : Rec) (w w2 : World) :
    (generate_sick_letter_after_render db record w).1 = db ++ [record] ∧
    (generate_sick_letter_after_render db record w).1 =
      (generate_sick_letter_after_render db record w2).1 ∧
    (generate_sick_letter_after_render db record w).2.success = true ∧
    (generate_sick_letter_after_render db record w).2.email_status =
      send_letter_to_admin w :=
  ⟨rfl, rfl, rfl, rfl⟩

/-- C9: the Google Drive adapter returns a failed result on every input (even
with a folder id configured, the hard-coded "service account not configured"
failure is returned), so drive is never the successful channel: the dispatcher
always returns the email result, and dispatch succeeds exactly when the email
attempt succeeds. -/
theorem c9_drive_never_succeeds (w : World) :
    (upload_to_drive w).success = false ∧
    send_letter_to_admin w = send_via_email w ∧
    ((send_letter_to_admin w).success = true ↔
      (send_via_email w).success = true) ∧
    (send_letter_to_admin w).method = some "email" := by
  refine ⟨drive_never_succeeds w, dispatch_eq_email w, ?_, ?_⟩
  · rw [dispatch_eq_email w]
  · rw [dispatch_eq_email w]; exact email_method w

/-- C10: the exporter writes the fixed 13 headers on row 1 and exactly one
data row per input record, in input order, at row i+2 for the i-th record,
each data row having one value per header. -/
theorem c10_one_row_per_record (records : List Rec) (i : Nat)
    (h : i < records.length) :
    headers.length = 13 ∧
    export_records_to_excel records 1 = some (headers.map Cell.str) ∧
    export_records_to_excel records (2 + i) =
      some (data_row (2 + i) (records.get ⟨i, h⟩)) ∧
    (data_row (2 + i) (records.get ⟨i, h⟩)).length = headers.length := by
  refine ⟨rfl, ?_, ?_, rfl⟩
  · unfold export_records_to_excel
    rw [write_data_of_lt _ _ _ _ (by omega)]
    unfold write_row
    simp
  · unfold export_records_to_excel
    exact write_data_at records _ 2 i h

/-- Witness for C10: a concrete two-record export, checked at the second
record. -/
theorem c10_witness :
    1 < [rec_a, rec_b].length ∧
    (headers.length = 13 ∧
     export_records_to_excel [rec_a, rec_b] 1 = some (headers.map Cell.str) ∧
     export_records_to_excel [rec_a, rec_b] (2 + 1) =
       some (data_row (2 + 1) ([rec_a, rec_b].get ⟨1, by decide⟩)) ∧
     (data_row (2 + 1) ([rec_a, rec_b].get ⟨1, by decide⟩)).length =
       headers.length) :=
  ⟨by decide, c10_one_row_per_record [rec_a, rec_b] 1 (by decide)⟩

end SuratSakit
